import Mathlib

/-!
Shallow embedding of `meilisearch/src/analytics/segment_analytics.rs`:
the type-erased telemetry aggregation engine (the `Message` / `Event`
envelope, `Segment::handle_msg`, `Segment::tick`) and the three concrete
aggregator kinds (`SearchAggregator`, `MultiSearchAggregator`,
`SimilarAggregator`) with their `aggregate` / `into_event` implementations.

Modelling conventions, each noted again at its definition:
* Rust `usize` is `Nat`; `saturating_add` is `satAdd` (clamped at
  `USIZE_MAX = 2^64 - 1`), `saturating_sub` on `Nat` is `Nat.sub`, and the
  one unchecked `+=` in the source (`finite_pagination`) is `wrapAdd`
  (release-profile wrapping addition modulo `2^64`).
* `BinaryHeap<usize>` exposes no order until `into_sorted_vec`, so it is a
  `Multiset Nat`; `push` is cons, `append` is multiset sum,
  `into_sorted_vec` is `Multiset.sort (· ≤ ·)`.
* `HashSet<String>` / `BTreeSet<Locale>` are `Finset`; `union` / `append`
  are `∪`.  `Locale` is an external enum, represented by `Nat` codes.
* `HashMap<String, usize>` counters (`used_syntax`, `matching_strategy`)
  only ever hold keys from a fixed finite set of literals inserted by
  `from_query`, so they are total functions from that finite key type to
  `Nat` (absent key = count 0, which is exactly how `entry(k).or_insert(0)`
  treats it); merge is key-wise `satAdd`.  `HashMap` iteration order is
  unspecified in Rust, so exports that iterate a map use a fixed canonical
  key order.
* `serde_json::Value` is `JsonValue`; the f64 divisions that the source
  formats into records (`format!("{:.2}", a as f64 / b as f64)` and the two
  raw f64 averages) are abstracted as the constructor `JsonValue.fdiv a b`
  holding the exact operands: the printed value is a function of the two
  operands, so equality of `fdiv` nodes implies equality of the printed
  records, and no claim inspects the printed digits themselves.
* `OffsetDateTime` timestamps are `Nat`; `TypeId` is the closed enum `Kind`
  (five concrete aggregate types occur: `SearchAggregator<SearchGET>`,
  `SearchAggregator<SearchPOST>`, `MultiSearchAggregator`,
  `SimilarAggregator<SimilarGET>`, `SimilarAggregator<SimilarPOST>`); the
  generic `downcast_aggregate::<T>` is indexed by that enum.
* The actor loop, the mailbox, the `AutoBatcher` sink and the `Identify`
  snapshot push are external I/O; `handle_msg` and the store-draining part
  of `tick` are modelled as pure functions on the events map.
-/

/-- Maximum value of a 64-bit Rust `usize`. -/
def USIZE_MAX : Nat := 2 ^ 64 - 1

/-- Rust `usize::saturating_add` on the `Nat` model: clamped at `USIZE_MAX`. -/
def satAdd (a b : Nat) : Nat := min (a + b) USIZE_MAX

/-- Rust release-profile `+=` on `usize`: wrapping addition modulo `2^64`.
Used by the one unchecked addition in the source
(`self.finite_pagination += finite_pagination`). -/
def wrapAdd (a b : Nat) : Nat := (a + b) % 2 ^ 64

theorem satAdd_comm (a b : Nat) : satAdd a b = satAdd b a := by
  unfold satAdd; rw [Nat.add_comm]

theorem satAdd_assoc (a b c : Nat) : satAdd (satAdd a b) c = satAdd a (satAdd b c) := by
  unfold satAdd; omega

theorem wrapAdd_comm (a b : Nat) : wrapAdd a b = wrapAdd b a := by
  unfold wrapAdd; rw [Nat.add_comm]

theorem wrapAdd_assoc (a b c : Nat) : wrapAdd (wrapAdd a b) c = wrapAdd a (wrapAdd b c) := by
  unfold wrapAdd; rw [Nat.mod_add_mod, Nat.add_mod_mod, Nat.add_assoc]

theorem satAdd_le (a b : Nat) : satAdd a b ≤ USIZE_MAX := Nat.min_le_right _ _

theorem satAdd_saturates (b : Nat) : satAdd USIZE_MAX b = USIZE_MAX := by
  unfold satAdd; omega

/-- Model of `serde_json::Value`.  `fdiv a b` abstracts a field whose value
the source computes by an `f64` division of `a` by `b` (formatted with
`format!` or serialized raw): the rendered value is a function of the pair,
so equality of `fdiv` nodes implies equality of rendered records. -/
inductive JsonValue where
  | null : JsonValue
  | bool : Bool → JsonValue
  | num : Nat → JsonValue
  | str : String → JsonValue
  | fdiv : Nat → Nat → JsonValue
  | arr : List JsonValue → JsonValue
  | obj : List (String × JsonValue) → JsonValue

/-- Lookup in an object's field list; `JsonValue.null` when absent, which is
how `serde_json`'s `Index` behaves (`properties["user-agent"]` is `Null`
when the key is missing). -/
def getKeyList : List (String × JsonValue) → String → JsonValue
  | [], _ => .null
  | p :: rest, k => if p.1 = k then p.2 else getKeyList rest k

/-- Insert-or-replace in an object's field list, as `serde_json`'s map
`insert` does (replace the value in place when the key exists, append
otherwise). -/
def setKeyList : List (String × JsonValue) → String → JsonValue → List (String × JsonValue)
  | [], k, v => [(k, v)]
  | p :: rest, k, v => if p.1 = k then (k, v) :: rest else p :: setKeyList rest k v

/-- Model of `value[key]` on a `serde_json::Value` (read side). -/
def JsonValue.getKey : JsonValue → String → JsonValue
  | .obj fields, k => getKeyList fields k
  | _, _ => .null

/-- Model of `value[key] = x` on a `serde_json::Value`.  On an object it is
insert-or-replace; `serde_json` turns a `Null` into a fresh one-entry object
(auto-vivification) and panics on other scalars — the aggregator only ever
assigns into objects or into the `Null` produced by a missing key, so the
catch-all arm is the auto-vivification case. -/
def JsonValue.setKey : JsonValue → String → JsonValue → JsonValue
  | .obj fields, k, v => .obj (setKeyList fields k v)
  | _, k, v => .obj [(k, v)]

/-- Model of `serde_json::Value::is_null`. -/
def JsonValue.isNull : JsonValue → Bool
  | .null => true
  | _ => false

theorem getKeyList_setKeyList_self (l : List (String × JsonValue)) (k : String) (v : JsonValue) :
    getKeyList (setKeyList l k v) k = v := by
  induction l with
  | nil => simp [setKeyList, getKeyList]
  | cons p rest ih =>
    by_cases h : p.1 = k
    · simp [setKeyList, getKeyList, h]
    · simp [setKeyList, getKeyList, h, ih]

theorem getKeyList_setKeyList_ne (l : List (String × JsonValue)) (k k' : String)
    (v : JsonValue) (h : k ≠ k') : getKeyList (setKeyList l k v) k' = getKeyList l k' := by
  induction l with
  | nil => simp [setKeyList, getKeyList, h]
  | cons p rest ih =>
    by_cases hp : p.1 = k
    · simp [setKeyList, getKeyList, hp, h]
    · simp only [setKeyList, if_neg hp]
      by_cases hp' : p.1 = k'
      · simp [getKeyList, hp']
      · simp [getKeyList, hp', ih]

theorem getKey_setKey_self (v : JsonValue) (k : String) (x : JsonValue) :
    (v.setKey k x).getKey k = x := by
  cases v <;> simp [JsonValue.setKey, JsonValue.getKey, getKeyList, getKeyList_setKeyList_self]

theorem getKey_setKey_ne (v : JsonValue) (k k' : String) (x : JsonValue) (h : k ≠ k') :
    (v.setKey k x).getKey k' = v.getKey k' := by
  cases v <;>
    simp [JsonValue.setKey, JsonValue.getKey, getKeyList, h, getKeyList_setKeyList_ne]

/-- Keys ever inserted into the `used_syntax : HashMap<String, usize>` of
`SearchAggregator::from_query` / `SimilarAggregator::from_query`: the
literals are "string", "array", "mixed" and "none". -/
inductive SyntaxKey where
  | sstring : SyntaxKey
  | sarray : SyntaxKey
  | smixed : SyntaxKey
  | snone : SyntaxKey

/-- Canonical iteration order over `SyntaxKey` (Rust `HashMap` iteration
order is unspecified; the claims never depend on it). -/
def SyntaxKey.all : List SyntaxKey := [.sstring, .sarray, .smixed, .snone]

/-- String literal each `SyntaxKey` stands for in the source. -/
def SyntaxKey.name : SyntaxKey → String
  | .sstring => "string"
  | .sarray => "array"
  | .smixed => "mixed"
  | .snone => "none"

/-- Keys ever inserted into `matching_strategy : HashMap<String, usize>`
(`format!` of the `MatchingStrategy` enum: "Last", "All", "Frequency"). -/
inductive StrategyKey where
  | last : StrategyKey
  | all : StrategyKey
  | frequency : StrategyKey

/-- Canonical iteration order over `StrategyKey`. -/
def StrategyKey.keys : List StrategyKey := [.last, .all, .frequency]

/-- String literal each `StrategyKey` stands for in the source. -/
def StrategyKey.name : StrategyKey → String
  | .last => "Last"
  | .all => "All"
  | .frequency => "Frequency"

/-- Model of `map.iter().max_by_key(|(_, v)| *v).map(|(k, _)| ...)` on a
counter map represented as a total function: the first key (in the given
canonical order) holding the maximal positive count, `none` when every
count is zero (i.e. the `HashMap` is empty).  Rust's `max_by_key` breaks
ties by unspecified `HashMap` iteration order; this determinization is only
ever applied to maps compared for equality, never inspected at a tie. -/
def mostUsedKey {α : Type} (keys : List α) (m : α → Nat) : Option α :=
  keys.foldl
    (fun best k =>
      if m k = 0 then best
      else
        match best with
        | none => some k
        | some j => if m j < m k then some k else some j)
    none

/-- JSON rendering of a `most_used_*` field: the maximal key as a string, or
`null` when the map is empty. -/
def mostUsedJson {α : Type} (keys : List α) (name : α → String) (m : α → Nat) : JsonValue :=
  match mostUsedKey keys m with
  | some k => .str (name k)
  | none => .null

/-- JSON rendering of an `Option<String>` built from the 99th-percentile
sample (`time_spent.get(idx).map(|t| format!("{:.2}", t))`; precision is
ignored when formatting an integer, so the string is the decimal form). -/
def jsonOfTimeOpt : Option Nat → JsonValue
  | some t => .str (Nat.repr t)
  | none => .null

/-- JSON rendering of a `HashSet<String>` (`json!(user_agents)`): an array
of the members; `HashSet` iteration order is unspecified, the model sorts. -/
def jsonOfAgents (s : Finset String) : JsonValue :=
  .arr ((s.sort (· ≤ ·)).map JsonValue.str)

/-- JSON rendering of the `BTreeSet<Locale>` (`"locales": locales`): the
ordered members (locale codes are modelled as numbers). -/
def jsonOfLocales (s : Finset Nat) : JsonValue :=
  .arr ((s.sort (· ≤ ·)).map JsonValue.num)

/-- Model of `SearchAggregator<Method>` (the `Method` parameter is a
phantom type that only selects the event name; both instantiations share
this payload). -/
structure SearchAggregator where
  total_received : Nat
  total_succeeded : Nat
  total_degraded : Nat
  total_used_negative_operator : Nat
  time_spent : Multiset Nat
  sort_with_geo_point : Bool
  sort_sum_of_criteria_terms : Nat
  sort_total_number_of_criteria : Nat
  distinct : Bool
  filter_with_geo_radius : Bool
  filter_with_geo_bounding_box : Bool
  filter_sum_of_criteria_terms : Nat
  filter_total_number_of_criteria : Nat
  used_syntax : SyntaxKey → Nat
  attributes_to_search_on_total_number_of_uses : Nat
  max_terms_number : Nat
  max_vector_size : Nat
  semantic_ratio : Bool
  hybrid : Bool
  retrieve_vectors : Bool
  matching_strategy : StrategyKey → Nat
  locales : Finset Nat
  max_limit : Nat
  max_offset : Nat
  finite_pagination : Nat
  max_attributes_to_retrieve : Nat
  max_attributes_to_highlight : Nat
  highlight_pre_tag : Bool
  highlight_post_tag : Bool
  max_attributes_to_crop : Nat
  crop_marker : Bool
  show_matches_position : Bool
  crop_length : Bool
  facets_sum_of_terms : Nat
  facets_total_number_of_facets : Nat
  show_ranking_score : Bool
  show_ranking_score_details : Bool
  ranking_score_threshold : Bool

/-- Rust `Default` for `SearchAggregator`: zero counts, empty collections,
false flags. -/
def SearchAggregator.default : SearchAggregator where
  total_received := 0
  total_succeeded := 0
  total_degraded := 0
  total_used_negative_operator := 0
  time_spent := 0
  sort_with_geo_point := false
  sort_sum_of_criteria_terms := 0
  sort_total_number_of_criteria := 0
  distinct := false
  filter_with_geo_radius := false
  filter_with_geo_bounding_box := false
  filter_sum_of_criteria_terms := 0
  filter_total_number_of_criteria := 0
  used_syntax := fun _ => 0
  attributes_to_search_on_total_number_of_uses := 0
  max_terms_number := 0
  max_vector_size := 0
  semantic_ratio := false
  hybrid := false
  retrieve_vectors := false
  matching_strategy := fun _ => 0
  locales := ∅
  max_limit := 0
  max_offset := 0
  finite_pagination := 0
  max_attributes_to_retrieve := 0
  max_attributes_to_highlight := 0
  highlight_pre_tag := false
  highlight_post_tag := false
  max_attributes_to_crop := 0
  crop_marker := false
  show_matches_position := false
  crop_length := false
  facets_sum_of_terms := 0
  facets_total_number_of_facets := 0
  show_ranking_score := false
  show_ranking_score_details := false
  ranking_score_threshold := false

/-- Model of `SearchAggregator::succeed(&mut self, result)`: bumps the
success counters and pushes the processing time onto the heap. -/
def SearchAggregator.succeed (self : SearchAggregator) (processing_time_ms : Nat)
    (degraded used_negative_operator : Bool) : SearchAggregator :=
  { self with
    total_succeeded := satAdd self.total_succeeded 1
    total_degraded :=
      if degraded then satAdd self.total_degraded 1 else self.total_degraded
    total_used_negative_operator :=
      if used_negative_operator then satAdd self.total_used_negative_operator 1
      else self.total_used_negative_operator
    time_spent := processing_time_ms ::ₘ self.time_spent }

/-- Model of `<SearchAggregator as Aggregate>::aggregate(self, new)`
(source lines 721-845): every field of `new` is folded into `self` —
saturating sums for counters, `|=` for flags, `max` for extrema, heap
append for samples, key-wise saturating sums for the two counter maps,
set append for locales, and one unchecked `+=` for `finite_pagination`. -/
def SearchAggregator.aggregate (self other : SearchAggregator) : SearchAggregator where
  total_received := satAdd self.total_received other.total_received
  total_succeeded := satAdd self.total_succeeded other.total_succeeded
  total_degraded := satAdd self.total_degraded other.total_degraded
  total_used_negative_operator :=
    satAdd self.total_used_negative_operator other.total_used_negative_operator
  time_spent := self.time_spent + other.time_spent
  sort_with_geo_point := self.sort_with_geo_point || other.sort_with_geo_point
  sort_sum_of_criteria_terms :=
    satAdd self.sort_sum_of_criteria_terms other.sort_sum_of_criteria_terms
  sort_total_number_of_criteria :=
    satAdd self.sort_total_number_of_criteria other.sort_total_number_of_criteria
  distinct := self.distinct || other.distinct
  filter_with_geo_radius := self.filter_with_geo_radius || other.filter_with_geo_radius
  filter_with_geo_bounding_box :=
    self.filter_with_geo_bounding_box || other.filter_with_geo_bounding_box
  filter_sum_of_criteria_terms :=
    satAdd self.filter_sum_of_criteria_terms other.filter_sum_of_criteria_terms
  filter_total_number_of_criteria :=
    satAdd self.filter_total_number_of_criteria other.filter_total_number_of_criteria
  used_syntax := fun k => satAdd (self.used_syntax k) (other.used_syntax k)
  attributes_to_search_on_total_number_of_uses :=
    satAdd self.attributes_to_search_on_total_number_of_uses
      other.attributes_to_search_on_total_number_of_uses
  max_terms_number := max self.max_terms_number other.max_terms_number
  max_vector_size := max self.max_vector_size other.max_vector_size
  semantic_ratio := self.semantic_ratio || other.semantic_ratio
  hybrid := self.hybrid || other.hybrid
  retrieve_vectors := self.retrieve_vectors || other.retrieve_vectors
  matching_strategy := fun k => satAdd (self.matching_strategy k) (other.matching_strategy k)
  locales := self.locales ∪ other.locales
  max_limit := max self.max_limit other.max_limit
  max_offset := max self.max_offset other.max_offset
  finite_pagination := wrapAdd self.finite_pagination other.finite_pagination
  max_attributes_to_retrieve :=
    max self.max_attributes_to_retrieve other.max_attributes_to_retrieve
  max_attributes_to_highlight :=
    max self.max_attributes_to_highlight other.max_attributes_to_highlight
  highlight_pre_tag := self.highlight_pre_tag || other.highlight_pre_tag
  highlight_post_tag := self.highlight_post_tag || other.highlight_post_tag
  max_attributes_to_crop := max self.max_attributes_to_crop other.max_attributes_to_crop
  crop_marker := self.crop_marker || other.crop_marker
  show_matches_position := self.show_matches_position || other.show_matches_position
  crop_length := self.crop_length || other.crop_length
  facets_sum_of_terms := satAdd self.facets_sum_of_terms other.facets_sum_of_terms
  facets_total_number_of_facets :=
    satAdd self.facets_total_number_of_facets other.facets_total_number_of_facets
  show_ranking_score := self.show_ranking_score || other.show_ranking_score
  show_ranking_score_details :=
    self.show_ranking_score_details || other.show_ranking_score_details
  ranking_score_threshold := self.ranking_score_threshold || other.ranking_score_threshold

/-- Model of `<SearchAggregator as Aggregate>::into_event` (source lines
847-959): sorts the latency samples, selects the nearest-rank 99th
percentile at index `len * 99 / 100`, and renders the flat record. -/
def SearchAggregator.into_event (a : SearchAggregator) : JsonValue :=
  let time_sorted := a.time_spent.sort (· ≤ ·)
  let percentile_99th := time_sorted.length * 99 / 100
  let time_value := time_sorted.get? percentile_99th
  .obj [
    ("requests", .obj [
      ("99th_response_time", jsonOfTimeOpt time_value),
      ("total_succeeded", .num a.total_succeeded),
      ("total_failed", .num (a.total_received - a.total_succeeded)),
      ("total_received", .num a.total_received),
      ("total_degraded", .num a.total_degraded),
      ("total_used_negative_operator", .num a.total_used_negative_operator)]),
    ("sort", .obj [
      ("with_geoPoint", .bool a.sort_with_geo_point),
      ("avg_criteria_number",
        .fdiv a.sort_sum_of_criteria_terms a.sort_total_number_of_criteria)]),
    ("distinct", .bool a.distinct),
    ("filter", .obj [
      ("with_geoRadius", .bool a.filter_with_geo_radius),
      ("with_geoBoundingBox", .bool a.filter_with_geo_bounding_box),
      ("avg_criteria_number",
        .fdiv a.filter_sum_of_criteria_terms a.filter_total_number_of_criteria),
      ("most_used_syntax", mostUsedJson SyntaxKey.all SyntaxKey.name a.used_syntax)]),
    ("attributes_to_search_on", .obj [
      ("total_number_of_uses", .num a.attributes_to_search_on_total_number_of_uses)]),
    ("q", .obj [("max_terms_number", .num a.max_terms_number)]),
    ("vector", .obj [
      ("max_vector_size", .num a.max_vector_size),
      ("retrieve_vectors", .bool a.retrieve_vectors)]),
    ("hybrid", .obj [
      ("enabled", .bool a.hybrid),
      ("semantic_ratio", .bool a.semantic_ratio)]),
    ("pagination", .obj [
      ("max_limit", .num a.max_limit),
      ("max_offset", .num a.max_offset),
      ("most_used_navigation",
        .str (if a.finite_pagination > a.total_received / 2 then "exhaustive" else "estimated"))]),
    ("formatting", .obj [
      ("max_attributes_to_retrieve", .num a.max_attributes_to_retrieve),
      ("max_attributes_to_highlight", .num a.max_attributes_to_highlight),
      ("highlight_pre_tag", .bool a.highlight_pre_tag),
      ("highlight_post_tag", .bool a.highlight_post_tag),
      ("max_attributes_to_crop", .num a.max_attributes_to_crop),
      ("crop_marker", .bool a.crop_marker),
      ("show_matches_position", .bool a.show_matches_position),
      ("crop_length", .bool a.crop_length)]),
    ("facets", .obj [
      ("avg_facets_number", .fdiv a.facets_sum_of_terms a.facets_total_number_of_facets)]),
    ("matching_strategy", .obj [
      ("most_used_strategy",
        mostUsedJson StrategyKey.keys StrategyKey.name a.matching_strategy)]),
    ("locales", jsonOfLocales a.locales),
    ("scoring", .obj [
      ("show_ranking_score", .bool a.show_ranking_score),
      ("show_ranking_score_details", .bool a.show_ranking_score_details),
      ("ranking_score_threshold", .bool a.ranking_score_threshold)])]

/-- Model of `MultiSearchAggregator` (source lines 962-982). -/
structure MultiSearchAggregator where
  total_received : Nat
  total_succeeded : Nat
  total_distinct_index_count : Nat
  total_single_index : Nat
  total_search_count : Nat
  show_ranking_score : Bool
  show_ranking_score_details : Bool
  use_federation : Bool

/-- Rust `Default` for `MultiSearchAggregator`. -/
def MultiSearchAggregator.default : MultiSearchAggregator where
  total_received := 0
  total_succeeded := 0
  total_distinct_index_count := 0
  total_single_index := 0
  total_search_count := 0
  show_ranking_score := false
  show_ranking_score_details := false
  use_federation := false

/-- Model of `MultiSearchAggregator::succeed`. -/
def MultiSearchAggregator.succeed (self : MultiSearchAggregator) : MultiSearchAggregator :=
  { self with total_succeeded := satAdd self.total_succeeded 1 }

/-- Model of `<MultiSearchAggregator as Aggregate>::aggregate` (source
lines 1057-1084): saturating sums for every counter and `||` for every
flag. -/
def MultiSearchAggregator.aggregate (this other : MultiSearchAggregator) :
    MultiSearchAggregator where
  total_received := satAdd this.total_received other.total_received
  total_succeeded := satAdd this.total_succeeded other.total_succeeded
  total_distinct_index_count :=
    satAdd this.total_distinct_index_count other.total_distinct_index_count
  total_single_index := satAdd this.total_single_index other.total_single_index
  total_search_count := satAdd this.total_search_count other.total_search_count
  show_ranking_score := this.show_ranking_score || other.show_ranking_score
  show_ranking_score_details :=
    this.show_ranking_score_details || other.show_ranking_score_details
  use_federation := this.use_federation || other.use_federation

/-- Model of `<MultiSearchAggregator as Aggregate>::into_event` (source
lines 1086-1121). -/
def MultiSearchAggregator.into_event (a : MultiSearchAggregator) : JsonValue :=
  .obj [
    ("requests", .obj [
      ("total_succeeded", .num a.total_succeeded),
      ("total_failed", .num (a.total_received - a.total_succeeded)),
      ("total_received", .num a.total_received)]),
    ("indexes", .obj [
      ("total_single_index", .num a.total_single_index),
      ("total_distinct_index_count", .num a.total_distinct_index_count),
      ("avg_distinct_index_count", .fdiv a.total_distinct_index_count a.total_received)]),
    ("searches", .obj [
      ("total_search_count", .num a.total_search_count),
      ("avg_search_count", .fdiv a.total_search_count a.total_received)]),
    ("scoring", .obj [
      ("show_ranking_score", .bool a.show_ranking_score),
      ("show_ranking_score_details", .bool a.show_ranking_score_details)]),
    ("federation", .obj [("use_federation", .bool a.use_federation)])]

/-- Model of `SimilarAggregator<Method>` (source lines 1129-1161); as with
`SearchAggregator`, the `Method` parameter is phantom. -/
structure SimilarAggregator where
  total_received : Nat
  total_succeeded : Nat
  time_spent : Multiset Nat
  filter_with_geo_radius : Bool
  filter_with_geo_bounding_box : Bool
  filter_sum_of_criteria_terms : Nat
  filter_total_number_of_criteria : Nat
  used_syntax : SyntaxKey → Nat
  retrieve_vectors : Bool
  max_limit : Nat
  max_offset : Nat
  max_attributes_to_retrieve : Nat
  show_ranking_score : Bool
  show_ranking_score_details : Bool
  ranking_score_threshold : Bool

/-- Rust `Default` for `SimilarAggregator`. -/
def SimilarAggregator.default : SimilarAggregator where
  total_received := 0
  total_succeeded := 0
  time_spent := 0
  filter_with_geo_radius := false
  filter_with_geo_bounding_box := false
  filter_sum_of_criteria_terms := 0
  filter_total_number_of_criteria := 0
  used_syntax := fun _ => 0
  retrieve_vectors := false
  max_limit := 0
  max_offset := 0
  max_attributes_to_retrieve := 0
  show_ranking_score := false
  show_ranking_score_details := false
  ranking_score_threshold := false

/-- Model of `SimilarAggregator::succeed`. -/
def SimilarAggregator.succeed (self : SimilarAggregator) (processing_time_ms : Nat) :
    SimilarAggregator :=
  { self with
    total_succeeded := satAdd self.total_succeeded 1
    time_spent := processing_time_ms ::ₘ self.time_spent }

/-- Model of `<SimilarAggregator as Aggregate>::aggregate` (source lines
1234-1287). -/
def SimilarAggregator.aggregate (self other : SimilarAggregator) : SimilarAggregator where
  total_received := satAdd self.total_received other.total_received
  total_succeeded := satAdd self.total_succeeded other.total_succeeded
  time_spent := self.time_spent + other.time_spent
  filter_with_geo_radius := self.filter_with_geo_radius || other.filter_with_geo_radius
  filter_with_geo_bounding_box :=
    self.filter_with_geo_bounding_box || other.filter_with_geo_bounding_box
  filter_sum_of_criteria_terms :=
    satAdd self.filter_sum_of_criteria_terms other.filter_sum_of_criteria_terms
  filter_total_number_of_criteria :=
    satAdd self.filter_total_number_of_criteria other.filter_total_number_of_criteria
  used_syntax := fun k => satAdd (self.used_syntax k) (other.used_syntax k)
  retrieve_vectors := self.retrieve_vectors || other.retrieve_vectors
  max_limit := max self.max_limit other.max_limit
  max_offset := max self.max_offset other.max_offset
  max_attributes_to_retrieve :=
    max self.max_attributes_to_retrieve other.max_attributes_to_retrieve
  show_ranking_score := self.show_ranking_score || other.show_ranking_score
  show_ranking_score_details :=
    self.show_ranking_score_details || other.show_ranking_score_details
  ranking_score_threshold := self.ranking_score_threshold || other.ranking_score_threshold

/-- Model of `<SimilarAggregator as Aggregate>::into_event` (source lines
1289-1345). -/
def SimilarAggregator.into_event (a : SimilarAggregator) : JsonValue :=
  let time_sorted := a.time_spent.sort (· ≤ ·)
  let percentile_99th := time_sorted.length * 99 / 100
  let time_value := time_sorted.get? percentile_99th
  .obj [
    ("requests", .obj [
      ("99th_response_time", jsonOfTimeOpt time_value),
      ("total_succeeded", .num a.total_succeeded),
      ("total_failed", .num (a.total_received - a.total_succeeded)),
      ("total_received", .num a.total_received)]),
    ("filter", .obj [
      ("with_geoRadius", .bool a.filter_with_geo_radius),
      ("with_geoBoundingBox", .bool a.filter_with_geo_bounding_box),
      ("avg_criteria_number",
        .fdiv a.filter_sum_of_criteria_terms a.filter_total_number_of_criteria),
      ("most_used_syntax", mostUsedJson SyntaxKey.all SyntaxKey.name a.used_syntax)]),
    ("vector", .obj [("retrieve_vectors", .bool a.retrieve_vectors)]),
    ("pagination", .obj [
      ("max_limit", .num a.max_limit),
      ("max_offset", .num a.max_offset)]),
    ("formatting", .obj [
      ("max_attributes_to_retrieve", .num a.max_attributes_to_retrieve)]),
    ("scoring", .obj [
      ("show_ranking_score", .bool a.show_ranking_score),
      ("show_ranking_score_details", .bool a.show_ranking_score_details),
      ("ranking_score_threshold", .bool a.ranking_score_threshold)])]

/-- The `TypeId`s that ever flow through the aggregator: one per concrete
`Aggregate` implementation instantiated by the routes
(`SearchAggregator<SearchGET>`, `SearchAggregator<SearchPOST>`,
`MultiSearchAggregator`, `SimilarAggregator<SimilarGET>`,
`SimilarAggregator<SimilarPOST>`). -/
inductive Kind where
  | searchGET : Kind
  | searchPOST : Kind
  | multiSearch : Kind
  | similarGET : Kind
  | similarPOST : Kind
deriving DecidableEq

/-- The five kinds, in a canonical order (Rust `HashMap<TypeId, Event>`
iteration order is unspecified). -/
def Kind.kinds : List Kind := [.searchGET, .searchPOST, .multiSearch, .similarGET, .similarPOST]

/-- Model of `Box<dyn Aggregate>`: a tagged union of the concrete payload
types. -/
inductive AnyAggregate where
  | searchGET : SearchAggregator → AnyAggregate
  | searchPOST : SearchAggregator → AnyAggregate
  | multiSearch : MultiSearchAggregator → AnyAggregate
  | similarGET : SimilarAggregator → AnyAggregate
  | similarPOST : SimilarAggregator → AnyAggregate

/-- The dynamic type tag of a boxed payload (what `TypeId` downcasting
inspects). -/
def AnyAggregate.kindOf : AnyAggregate → Kind
  | .searchGET _ => .searchGET
  | .searchPOST _ => .searchPOST
  | .multiSearch _ => .multiSearch
  | .similarGET _ => .similarGET
  | .similarPOST _ => .similarPOST

/-- Model of `Aggregate::event_name` per concrete kind (the
`aggregate_methods!` strings and the multi-search literal). -/
def AnyAggregate.event_name : AnyAggregate → String
  | .searchGET _ => "Documents Searched GET"
  | .searchPOST _ => "Documents Searched POST"
  | .multiSearch _ => "Documents Searched by Multi-Search POST"
  | .similarGET _ => "Similar GET"
  | .similarPOST _ => "Similar POST"

/-- Dispatch of `Aggregate::into_event` through the trait object. -/
def AnyAggregate.into_event : AnyAggregate → JsonValue
  | .searchGET a => a.into_event
  | .searchPOST a => a.into_event
  | .multiSearch a => a.into_event
  | .similarGET a => a.into_event
  | .similarPOST a => a.into_event

/-- The concrete payload type behind each `Kind`, for typed construction in
`Message::new::<T>`. -/
def Kind.Payload : Kind → Type
  | .searchGET => SearchAggregator
  | .searchPOST => SearchAggregator
  | .multiSearch => MultiSearchAggregator
  | .similarGET => SimilarAggregator
  | .similarPOST => SimilarAggregator

/-- Boxing a typed payload as a trait object. -/
def AnyAggregate.pack : (k : Kind) → Kind.Payload k → AnyAggregate
  | .searchGET, a => .searchGET a
  | .searchPOST, a => .searchPOST a
  | .multiSearch, a => .multiSearch a
  | .similarGET, a => .similarGET a
  | .similarPOST, a => .similarPOST a

/-- Model of `downcast_aggregate::<ConcreteType>` (source lines 87-99),
indexed by the `Kind` standing for `ConcreteType`: if both boxes hold that
concrete type, downcast and call the type's `aggregate`; otherwise return
`none`. -/
def downcast_aggregate : Kind → AnyAggregate → AnyAggregate → Option AnyAggregate
  | .searchGET, .searchGET a, .searchGET b => some (.searchGET (a.aggregate b))
  | .searchPOST, .searchPOST a, .searchPOST b => some (.searchPOST (a.aggregate b))
  | .multiSearch, .multiSearch a, .multiSearch b => some (.multiSearch (a.aggregate b))
  | .similarGET, .similarGET a, .similarGET b => some (.similarGET (a.aggregate b))
  | .similarPOST, .similarPOST a, .similarPOST b => some (.similarPOST (a.aggregate b))
  | _, _, _ => none

/-- Model of the `Event` envelope (source lines 78-83): the boxed payload
plus bookkeeping. -/
structure Event where
  original : AnyAggregate
  timestamp : Nat
  user_agents : Finset String
  total : Nat

/-- Model of `Message` (source lines 68-76): the `TypeId`, the bound
aggregator function, and the envelope. -/
structure Message where
  type_id : Kind
  aggregator_function : AnyAggregate → AnyAggregate → Option AnyAggregate
  event : Event

/-- Model of `Message::new::<T>` (source lines 101-114): tags the envelope
with `TypeId::of::<T>`, binds `downcast_aggregate::<T>`, and wraps the
payload with the request timestamp, the extracted user agents, and
`total = 1`. -/
def Message.new (k : Kind) (event : Kind.Payload k) (timestamp : Nat)
    (user_agents : Finset String) : Message where
  type_id := k
  aggregator_function := downcast_aggregate k
  event :=
    { original := AnyAggregate.pack k event
      timestamp := timestamp
      user_agents := user_agents
      total := 1 }

/-- The aggregation store `events : HashMap<TypeId, Event>` of `Segment`. -/
abbrev Store := Kind → Option Event

/-- Model of `Segment::handle_msg` (source lines 404-423).  The source
`remove`s the entry for the message's `TypeId`; when the bound aggregator
function returns `None` it early-returns — with the removed entry never
re-inserted — and otherwise inserts the merged envelope, keeping the first
timestamp, the union of user agents, and the saturating sum of totals. -/
def handle_msg (events : Store) (msg : Message) : Store :=
  match events msg.type_id with
  | some old =>
    match msg.aggregator_function old.original msg.event.original with
    | none => fun k => if k = msg.type_id then none else events k
    | some original =>
      fun k =>
        if k = msg.type_id then
          some
            { original := original
              timestamp := old.timestamp
              user_agents := old.user_agents ∪ msg.event.user_agents
              total := satAdd old.total msg.event.total }
        else events k
  | none => fun k => if k = msg.type_id then some msg.event else events k

/-- A `Track` record pushed to the batcher (the sink's view of one exported
envelope). -/
structure TrackRecord where
  event : String
  properties : JsonValue
  timestamp : Option Nat

/-- The per-envelope body of `Segment::tick`'s export loop (source lines
466-487): render the payload, back-fill `"user-agent"` and
`"requests"."total_received"` only when the concrete kind left them null,
and push a `Track` carrying the envelope's first timestamp. -/
def exportEvent (e : Event) : TrackRecord :=
  let name := e.original.event_name
  let properties := e.original.into_event
  let properties :=
    if (properties.getKey "user-agent").isNull then
      properties.setKey "user-agent" (jsonOfAgents e.user_agents)
    else properties
  let properties :=
    if ((properties.getKey "requests").getKey "total_received").isNull then
      properties.setKey "requests"
        ((properties.getKey "requests").setKey "total_received" (.num e.total))
    else properties
  { event := name, properties := properties, timestamp := some e.timestamp }

/-- Model of the store-draining part of `Segment::tick` (source lines
425-491): `std::mem::take` empties the events map before the export loop
runs, so the returned store is empty whatever the sink does; the drained
envelopes are exported in canonical kind order.  The `Identify` snapshot
push and the batcher flush are external I/O. -/
def tick (events : Store) : List TrackRecord × Store :=
  (Kind.kinds.filterMap fun k => (events k).map exportEvent, fun _ => none)

theorem searchAggregate_comm (a b : SearchAggregator) :
    a.aggregate b = b.aggregate a := by
  simp only [SearchAggregator.aggregate, SearchAggregator.mk.injEq]
  and_intros <;>
    first
      | exact satAdd_comm _ _
      | exact wrapAdd_comm _ _
      | exact Bool.or_comm _ _
      | exact Nat.max_comm _ _
      | exact add_comm _ _
      | exact Finset.union_comm _ _
      | (funext k; exact satAdd_comm _ _)

theorem searchAggregate_assoc (a b c : SearchAggregator) :
    (a.aggregate b).aggregate c = a.aggregate (b.aggregate c) := by
  simp only [SearchAggregator.aggregate, SearchAggregator.mk.injEq]
  and_intros <;>
    first
      | exact satAdd_assoc _ _ _
      | exact wrapAdd_assoc _ _ _
      | exact Bool.or_assoc _ _ _
      | exact Nat.max_assoc _ _ _
      | exact add_assoc _ _ _
      | exact Finset.union_assoc _ _ _
      | (funext k; exact satAdd_assoc _ _ _)

theorem multiAggregate_comm (a b : MultiSearchAggregator) :
    a.aggregate b = b.aggregate a := by
  simp only [MultiSearchAggregator.aggregate, MultiSearchAggregator.mk.injEq]
  and_intros <;> first | exact satAdd_comm _ _ | exact Bool.or_comm _ _

theorem multiAggregate_assoc (a b c : MultiSearchAggregator) :
    (a.aggregate b).aggregate c = a.aggregate (b.aggregate c) := by
  simp only [MultiSearchAggregator.aggregate, MultiSearchAggregator.mk.injEq]
  and_intros <;> first | exact satAdd_assoc _ _ _ | exact Bool.or_assoc _ _ _

theorem similarAggregate_comm (a b : SimilarAggregator) :
    a.aggregate b = b.aggregate a := by
  simp only [SimilarAggregator.aggregate, SimilarAggregator.mk.injEq]
  and_intros <;>
    first
      | exact satAdd_comm _ _
      | exact Bool.or_comm _ _
      | exact Nat.max_comm _ _
      | exact add_comm _ _
      | (funext k; exact satAdd_comm _ _)

theorem similarAggregate_assoc (a b c : SimilarAggregator) :
    (a.aggregate b).aggregate c = a.aggregate (b.aggregate c) := by
  simp only [SimilarAggregator.aggregate, SimilarAggregator.mk.injEq]
  and_intros <;>
    first
      | exact satAdd_assoc _ _ _
      | exact Bool.or_assoc _ _ _
      | exact Nat.max_assoc _ _ _
      | exact add_assoc _ _ _
      | (funext k; exact satAdd_assoc _ _ _)

/-- C2: for every payload kind and any instances a, b, c of that kind,
`aggregate(a, b)` and `aggregate(b, a)` export identical records via
`into_event` (commutativity), and `aggregate(aggregate(a, b), c)` equals
`aggregate(a, aggregate(b, c))` field-by-field (associativity). -/
theorem aggregate_comm_and_assoc :
    (∀ a b : SearchAggregator, (a.aggregate b).into_event = (b.aggregate a).into_event) ∧
    (∀ a b c : SearchAggregator, (a.aggregate b).aggregate c = a.aggregate (b.aggregate c)) ∧
    (∀ a b : MultiSearchAggregator,
      (a.aggregate b).into_event = (b.aggregate a).into_event) ∧
    (∀ a b c : MultiSearchAggregator,
      (a.aggregate b).aggregate c = a.aggregate (b.aggregate c)) ∧
    (∀ a b : SimilarAggregator, (a.aggregate b).into_event = (b.aggregate a).into_event) ∧
    (∀ a b c : SimilarAggregator,
      (a.aggregate b).aggregate c = a.aggregate (b.aggregate c)) :=
  ⟨fun a b => by rw [searchAggregate_comm],
   searchAggregate_assoc,
   fun a b => by rw [multiAggregate_comm],
   multiAggregate_assoc,
   fun a b => by rw [similarAggregate_comm],
   similarAggregate_assoc⟩

/-- The ten-sample aggregator from the spec's percentile scenario: latency
samples 10, 20, ..., 100. -/
def tenSampleSearch : SearchAggregator :=
  { SearchAggregator.default with time_spent := ↑[10, 20, 30, 40, 50, 60, 70, 80, 90, 100] }

/-- C3: at export time the latency sample collection is sorted and the
reported "99th response time" is the element at nearest-rank index
`floor(len * 99 / 100)`; the empty collection exports an explicit null (no
out-of-range access), and the 10-sample set [10, 20, ..., 100] computes
index `floor(10 * 99 / 100) = 9` and selects the maximum, 100. -/
theorem percentile_nearest_rank :
    (∀ a : SearchAggregator,
      (a.into_event.getKey "requests").getKey "99th_response_time" =
        jsonOfTimeOpt ((a.time_spent.sort (· ≤ ·)).get?
          ((a.time_spent.sort (· ≤ ·)).length * 99 / 100))) ∧
    ((SearchAggregator.default.into_event.getKey "requests").getKey "99th_response_time" =
      JsonValue.null) ∧
    ((↑[10, 20, 30, 40, 50, 60, 70, 80, 90, 100] : Multiset Nat).card * 99 / 100 = 9) ∧
    ((tenSampleSearch.into_event.getKey "requests").getKey "99th_response_time" =
      JsonValue.str "100") := by
  refine ⟨fun a => rfl, ?_, by decide, ?_⟩
  · simp [SearchAggregator.into_event, SearchAggregator.default, JsonValue.getKey,
      getKeyList, jsonOfTimeOpt]
  · simp [SearchAggregator.into_event, tenSampleSearch, SearchAggregator.default,
      JsonValue.getKey, getKeyList, jsonOfTimeOpt, List.mergeSort, List.merge,
      Nat.repr, Nat.toDigits, Nat.toDigitsCore, Nat.digitChar]
    rfl

theorem nearestRankIndex_lt (n : Nat) (h : n ≠ 0) : n * 99 / 100 < n := by omega

/-- C9: the nearest-rank index `len * 99 / 100` is strictly below `len` for
every non-empty latency collection, so the Option-returning lookup in
`into_event` yields a value exactly when the collection is non-empty — the
indexing is total and never out of range (for both `SearchAggregator` and
`SimilarAggregator`). -/
theorem percentile_lookup_total :
    (∀ a : SearchAggregator, a.time_spent ≠ 0 →
      ((a.into_event.getKey "requests").getKey "99th_response_time").isNull = false) ∧
    (∀ a : SearchAggregator, a.time_spent = 0 →
      ((a.into_event.getKey "requests").getKey "99th_response_time").isNull = true) ∧
    (∀ s : SimilarAggregator, s.time_spent ≠ 0 →
      ((s.into_event.getKey "requests").getKey "99th_response_time").isNull = false) ∧
    (∀ s : SimilarAggregator, s.time_spent = 0 →
      ((s.into_event.getKey "requests").getKey "99th_response_time").isNull = true) := by
  refine ⟨fun a h => ?_, fun a h => ?_, fun s h => ?_, fun s h => ?_⟩
  · have hidx : (a.time_spent.sort (· ≤ ·)).length * 99 / 100 <
        (a.time_spent.sort (· ≤ ·)).length := by
      rw [Multiset.length_sort]
      exact nearestRankIndex_lt _ (by simpa using h)
    show (jsonOfTimeOpt ((a.time_spent.sort (· ≤ ·)).get?
      ((a.time_spent.sort (· ≤ ·)).length * 99 / 100))).isNull = false
    rw [List.get?_eq_get hidx]
    rfl
  · show (jsonOfTimeOpt ((a.time_spent.sort (· ≤ ·)).get?
      ((a.time_spent.sort (· ≤ ·)).length * 99 / 100))).isNull = true
    rw [h]
    simp [jsonOfTimeOpt, JsonValue.isNull]
  · have hidx : (s.time_spent.sort (· ≤ ·)).length * 99 / 100 <
        (s.time_spent.sort (· ≤ ·)).length := by
      rw [Multiset.length_sort]
      exact nearestRankIndex_lt _ (by simpa using h)
    show (jsonOfTimeOpt ((s.time_spent.sort (· ≤ ·)).get?
      ((s.time_spent.sort (· ≤ ·)).length * 99 / 100))).isNull = false
    rw [List.get?_eq_get hidx]
    rfl
  · show (jsonOfTimeOpt ((s.time_spent.sort (· ≤ ·)).get?
      ((s.time_spent.sort (· ≤ ·)).length * 99 / 100))).isNull = true
    rw [h]
    simp [jsonOfTimeOpt, JsonValue.isNull]

/-- C9 witness: the non-empty ten-sample aggregator exports a value, and
the default (empty) aggregator exports null. -/
theorem percentile_lookup_total_witness :
    ((tenSampleSearch.into_event.getKey "requests").getKey "99th_response_time").isNull
        = false ∧
    ((SearchAggregator.default.into_event.getKey
        "requests").getKey "99th_response_time").isNull = true :=
  ⟨percentile_lookup_total.1 tenSampleSearch (by simp [tenSampleSearch]),
   percentile_lookup_total.2.1 SearchAggregator.default rfl⟩

/-- C7: folding three search events that each arrived with
`total_received = 1`, two of which were marked succeeded via `succeed` and
one not, and exporting, yields a requests section with `total_received = 3`,
`total_succeeded = 2`, and `total_failed = 1` (computed as
`total_received.saturating_sub(total_succeeded)`). -/
theorem three_search_events_export (a b c : SearchAggregator)
    (ha1 : a.total_received = 1) (hb1 : b.total_received = 1) (hc1 : c.total_received = 1)
    (ha2 : a.total_succeeded = 1) (hb2 : b.total_succeeded = 1)
    (hc2 : c.total_succeeded = 0) :
    ((((a.aggregate b).aggregate c).into_event.getKey "requests").getKey "total_received"
        = JsonValue.num 3) ∧
    ((((a.aggregate b).aggregate c).into_event.getKey "requests").getKey "total_succeeded"
        = JsonValue.num 2) ∧
    ((((a.aggregate b).aggregate c).into_event.getKey "requests").getKey "total_failed"
        = JsonValue.num 1) := by
  have hr : ((a.aggregate b).aggregate c).total_received = 3 := by
    simp [SearchAggregator.aggregate, ha1, hb1, hc1, satAdd, USIZE_MAX]
  have hs : ((a.aggregate b).aggregate c).total_succeeded = 2 := by
    simp [SearchAggregator.aggregate, ha2, hb2, hc2, satAdd, USIZE_MAX]
  have e1 : ((((a.aggregate b).aggregate c).into_event.getKey "requests").getKey
      "total_received") = JsonValue.num ((a.aggregate b).aggregate c).total_received := rfl
  have e2 : ((((a.aggregate b).aggregate c).into_event.getKey "requests").getKey
      "total_succeeded") = JsonValue.num ((a.aggregate b).aggregate c).total_succeeded := rfl
  have e3 : ((((a.aggregate b).aggregate c).into_event.getKey "requests").getKey
      "total_failed") = JsonValue.num (((a.aggregate b).aggregate c).total_received -
        ((a.aggregate b).aggregate c).total_succeeded) := rfl
  exact ⟨by rw [e1, hr], by rw [e2, hs], by rw [e3, hr, hs]⟩

/-- A search event payload as the routes construct it for one request:
`total_received = 1`, nothing succeeded yet. -/
def searchEventBase : SearchAggregator :=
  { SearchAggregator.default with total_received := 1 }

/-- C7 witness: two concrete events marked succeeded via `succeed` (10 ms
and 20 ms) and one left failed, folded and exported. -/
theorem three_search_events_export_witness :
    (((((searchEventBase.succeed 10 false false).aggregate
          (searchEventBase.succeed 20 false false)).aggregate
            searchEventBase).into_event.getKey "requests").getKey "total_received"
        = JsonValue.num 3) ∧
    (((((searchEventBase.succeed 10 false false).aggregate
          (searchEventBase.succeed 20 false false)).aggregate
            searchEventBase).into_event.getKey "requests").getKey "total_succeeded"
        = JsonValue.num 2) ∧
    (((((searchEventBase.succeed 10 false false).aggregate
          (searchEventBase.succeed 20 false false)).aggregate
            searchEventBase).into_event.getKey "requests").getKey "total_failed"
        = JsonValue.num 1) :=
  three_search_events_export (searchEventBase.succeed 10 false false)
    (searchEventBase.succeed 20 false false) searchEventBase rfl rfl rfl rfl rfl rfl

theorem pack_kindOf (k : Kind) (p : Kind.Payload k) : (AnyAggregate.pack k p).kindOf = k := by
  cases k <;> rfl

theorem downcast_total (k : Kind) (a b : AnyAggregate) (ha : a.kindOf = k)
    (hb : b.kindOf = k) : ∃ c, downcast_aggregate k a b = some c ∧ c.kindOf = k := by
  subst ha
  cases a <;> cases b <;> simp_all [AnyAggregate.kindOf, downcast_aggregate]

theorem handle_msg_merge (events : Store) (msg : Message) (old : Event)
    (merged : AnyAggregate) (hold : events msg.type_id = some old)
    (hagg : msg.aggregator_function old.original msg.event.original = some merged) :
    handle_msg events msg = fun k =>
      if k = msg.type_id then
        some
          { original := merged
            timestamp := old.timestamp
            user_agents := old.user_agents ∪ msg.event.user_agents
            total := satAdd old.total msg.event.total }
      else events k := by
  simp only [handle_msg, hold, hagg]

theorem handle_msg_insert (events : Store) (msg : Message)
    (hnone : events msg.type_id = none) :
    handle_msg events msg = fun k =>
      if k = msg.type_id then some msg.event else events k := by
  simp only [handle_msg, hnone]

theorem handle_msg_mismatch (events : Store) (msg : Message) (old : Event)
    (hold : events msg.type_id = some old)
    (hmis : msg.aggregator_function old.original msg.event.original = none) :
    handle_msg events msg = fun k => if k = msg.type_id then none else events k := by
  simp only [handle_msg, hold, hmis]

/-- A well-formed stored envelope for the search-GET kind. -/
def storedSearchEnvelope : Event where
  original := .searchGET searchEventBase
  timestamp := 100
  user_agents := ∅
  total := 1

/-- A store holding exactly one envelope, under the search-GET kind. -/
def storeWithSearch : Store :=
  fun k => if k = Kind.searchGET then some storedSearchEnvelope else none

/-- A message whose `type_id` tag says search-GET but whose bound aggregator
function is the search-POST downcast, so the bound function detects a kind
mismatch and returns `None`. -/
def mismatchedMessage : Message where
  type_id := Kind.searchGET
  aggregator_function := downcast_aggregate Kind.searchPOST
  event :=
    { original := .searchGET searchEventBase
      timestamp := 110
      user_agents := ∅
      total := 1 }

/-- C1 counterexample: on a detected kind mismatch the incoming event is
indeed dropped, but the previously stored envelope does NOT remain in the
store — `handle_msg` removes the entry before calling the aggregator
function and the early return never re-inserts it, so the store afterwards
holds nothing for that kind. -/
theorem handle_msg_mismatch_cex :
    storeWithSearch Kind.searchGET = some storedSearchEnvelope ∧
    mismatchedMessage.aggregator_function storedSearchEnvelope.original
      mismatchedMessage.event.original = none ∧
    handle_msg storeWithSearch mismatchedMessage Kind.searchGET = none ∧
    handle_msg storeWithSearch mismatchedMessage Kind.searchGET ≠
      storeWithSearch Kind.searchGET := by
  refine ⟨rfl, rfl, rfl, fun h => ?_⟩
  rw [show handle_msg storeWithSearch mismatchedMessage Kind.searchGET = none from rfl,
    show storeWithSearch Kind.searchGET = some storedSearchEnvelope from rfl] at h
  exact Option.noConfusion h

/-- C1 (amended): when the bound aggregator function reports a kind
mismatch while a stored envelope exists for the incoming kind tag, the
incoming event is dropped and the previously stored envelope is removed as
well — the store afterwards holds no envelope for that kind, while entries
of every other kind are untouched. -/
theorem handle_msg_mismatch_drops_both (events : Store) (msg : Message) (old : Event)
    (hold : events msg.type_id = some old)
    (hmis : msg.aggregator_function old.original msg.event.original = none) :
    handle_msg events msg msg.type_id = none ∧
    ∀ k, k ≠ msg.type_id → handle_msg events msg k = events k := by
  rw [handle_msg_mismatch events msg old hold hmis]
  exact ⟨if_pos rfl, fun k hk => if_neg hk⟩

/-- C1 witness: the amended behaviour at the concrete corrupted input. -/
theorem handle_msg_mismatch_drops_both_witness :
    handle_msg storeWithSearch mismatchedMessage Kind.searchGET = none :=
  (handle_msg_mismatch_drops_both storeWithSearch mismatchedMessage
    storedSearchEnvelope rfl rfl).1

theorem foldl_handle_msg_timestamp (k : Kind) (msgs : List Message)
    (hmsgs : ∀ m ∈ msgs, m.type_id = k ∧ m.aggregator_function = downcast_aggregate k ∧
      m.event.original.kindOf = k)
    (events : Store) (e0 : Event) (h0 : events k = some e0)
    (hk0 : e0.original.kindOf = k) :
    ∃ e, (msgs.foldl handle_msg events) k = some e ∧ e.timestamp = e0.timestamp ∧
      e.original.kindOf = k := by
  induction msgs generalizing events e0 with
  | nil => exact ⟨e0, h0, rfl, hk0⟩
  | cons m rest ih =>
    obtain ⟨hm1, hm2, hm3⟩ := hmsgs m (List.mem_cons_self m rest)
    obtain ⟨merged, hmc, hmk⟩ := downcast_total k e0.original m.event.original hk0 hm3
    have hold : events m.type_id = some e0 := by rw [hm1, h0]
    have hagg : m.aggregator_function e0.original m.event.original = some merged := by
      rw [hm2]; exact hmc
    have hstep : (handle_msg events m) k =
        some
          { original := merged
            timestamp := e0.timestamp
            user_agents := e0.user_agents ∪ m.event.user_agents
            total := satAdd e0.total m.event.total } := by
      rw [handle_msg_merge events m e0 merged hold hagg, hm1]
      exact if_pos rfl
    obtain ⟨e, he, ht, hke⟩ :=
      ih (fun m' hm' => hmsgs m' (List.mem_cons_of_mem m hm')) (handle_msg events m) _
        hstep hmk
    exact ⟨e, he, ht, hke⟩

/-- C4: an envelope's first-seen timestamp never changes across merges —
the merged envelope keeps the stored timestamp, the exported `Track`
carries the envelope's timestamp, and folding any same-kind message
sequence onto a first event recorded at time `ts` leaves the stored
timestamp at `ts`. -/
theorem first_seen_preserved :
    (∀ (events : Store) (msg : Message) (old : Event) (merged : AnyAggregate),
      events msg.type_id = some old →
      msg.aggregator_function old.original msg.event.original = some merged →
      ∃ e, handle_msg events msg msg.type_id = some e ∧ e.timestamp = old.timestamp) ∧
    (∀ e : Event, (exportEvent e).timestamp = some e.timestamp) ∧
    (∀ (k : Kind) (p : Kind.Payload k) (ts : Nat) (ua : Finset String)
      (rest : List Message),
      (∀ m ∈ rest, m.type_id = k ∧ m.aggregator_function = downcast_aggregate k ∧
        m.event.original.kindOf = k) →
      ∃ e, (rest.foldl handle_msg
          (handle_msg (fun _ => none) (Message.new k p ts ua))) k = some e ∧
        e.timestamp = ts) := by
  refine ⟨fun events msg old merged hold hagg => ?_, fun e => rfl,
    fun k p ts ua rest hrest => ?_⟩
  · refine ⟨Event.mk merged old.timestamp (old.user_agents ∪ msg.event.user_agents)
      (satAdd old.total msg.event.total), ?_, rfl⟩
    rw [handle_msg_merge events msg old merged hold hagg]
    exact if_pos rfl
  · have hinit : (handle_msg (fun _ => none) (Message.new k p ts ua)) k =
        some (Message.new k p ts ua).event := by
      rw [handle_msg_insert (fun _ => none) (Message.new k p ts ua) rfl]
      exact if_pos rfl
    obtain ⟨e, he, ht, _⟩ := foldl_handle_msg_timestamp k rest hrest _ _ hinit
      (pack_kindOf k p)
    exact ⟨e, he, ht⟩

/-- C4 witness: a second search event arriving at time 110 merged into an
envelope first recorded at time 100 leaves the stored timestamp at 100. -/
theorem first_seen_preserved_witness :
    ∃ e, ([Message.new Kind.searchGET searchEventBase 110 ∅].foldl handle_msg
        (handle_msg (fun _ => none)
          (Message.new Kind.searchGET searchEventBase 100 ∅))) Kind.searchGET
      = some e ∧ e.timestamp = 100 :=
  first_seen_preserved.2.2 Kind.searchGET searchEventBase 100 ∅
    [Message.new Kind.searchGET searchEventBase 110 ∅]
    (by
      intro m hm
      rw [List.mem_singleton] at hm
      subst hm
      exact ⟨rfl, rfl, rfl⟩)

/-- C5: the merged envelope's occurrence count is the saturating sum of the
two totals — bounded by `usize::MAX`, and already-maximal counts stay at
the representable maximum instead of wrapping. -/
theorem envelope_total_saturates (events : Store) (msg : Message) (old : Event)
    (merged : AnyAggregate) (hold : events msg.type_id = some old)
    (hagg : msg.aggregator_function old.original msg.event.original = some merged) :
    ∃ e, handle_msg events msg msg.type_id = some e ∧
      e.total = satAdd old.total msg.event.total ∧
      e.total ≤ USIZE_MAX ∧
      (old.total = USIZE_MAX → e.total = USIZE_MAX) := by
  refine ⟨Event.mk merged old.timestamp (old.user_agents ∪ msg.event.user_agents)
      (satAdd old.total msg.event.total), ?_, rfl, satAdd_le _ _, fun h => ?_⟩
  · rw [handle_msg_merge events msg old merged hold hagg]
    exact if_pos rfl
  · rw [h]
    exact satAdd_saturates _

/-- A stored search envelope whose occurrence count already sits at
`usize::MAX`. -/
def maxTotalEnvelope : Event where
  original := .searchGET searchEventBase
  timestamp := 100
  user_agents := ∅
  total := USIZE_MAX

/-- A store holding the maximal-count envelope under the search-GET kind. -/
def storeWithMaxTotal : Store :=
  fun k => if k = Kind.searchGET then some maxTotalEnvelope else none

/-- C5 witness: merging one more event (total 1) into a `usize::MAX`
envelope leaves the count at `usize::MAX`. -/
theorem envelope_total_saturates_witness :
    ∃ e, handle_msg storeWithMaxTotal
        (Message.new Kind.searchGET searchEventBase 110 ∅) Kind.searchGET = some e ∧
      e.total = USIZE_MAX := by
  obtain ⟨e, he, _, _, hmax⟩ := envelope_total_saturates storeWithMaxTotal
    (Message.new Kind.searchGET searchEventBase 110 ∅) maxTotalEnvelope
    (AnyAggregate.searchGET (searchEventBase.aggregate searchEventBase)) rfl rfl
  exact ⟨e, he, hmax rfl⟩

theorem kind_mem_kinds (k : Kind) : k ∈ Kind.kinds := by
  cases k <;> simp [Kind.kinds]

theorem filterMap_exportEvent_length (events : Store) (l : List Kind) :
    (l.filterMap fun k => (events k).map exportEvent).length =
      (l.filter fun k => (events k).isSome).length := by
  induction l with
  | nil => rfl
  | cons k rest ih =>
    cases hk : events k <;>
      simp [List.filterMap_cons, List.filter_cons, hk, ih]

/-- C6: the flush takes the whole events map and replaces it with an empty
one before any export happens, so the post-flush store holds zero entries
for every kind; every envelope that was stored contributes exactly one
exported record. -/
theorem tick_empties_store (events : Store) :
    (∀ k, (tick events).2 k = none) ∧
    ((tick events).1.length = (Kind.kinds.filter fun k => (events k).isSome).length) ∧
    (∀ k e, events k = some e → exportEvent e ∈ (tick events).1) := by
  refine ⟨fun k => rfl, filterMap_exportEvent_length events Kind.kinds,
    fun k e hk => ?_⟩
  exact List.mem_filterMap.mpr ⟨k, kind_mem_kinds k, by rw [hk]; rfl⟩

/-- C6 witness: flushing the one-envelope store empties it and exports the
stored envelope. -/
theorem tick_empties_store_witness :
    (tick storeWithSearch).2 Kind.searchGET = none ∧
    exportEvent storedSearchEnvelope ∈ (tick storeWithSearch).1 :=
  ⟨(tick_empties_store storeWithSearch).1 Kind.searchGET,
   (tick_empties_store storeWithSearch).2.2 Kind.searchGET storedSearchEnvelope rfl⟩

theorem step1_user_agent (p ua : JsonValue) :
    (if (p.getKey "user-agent").isNull then p.setKey "user-agent" ua else p).getKey
        "user-agent" =
      (if (p.getKey "user-agent").isNull then ua else p.getKey "user-agent") := by
  by_cases h : (p.getKey "user-agent").isNull
  · simp [h, getKey_setKey_self]
  · simp [h]

theorem step1_requests (p ua : JsonValue) :
    (if (p.getKey "user-agent").isNull then p.setKey "user-agent" ua else p).getKey
        "requests" = p.getKey "requests" := by
  by_cases h : (p.getKey "user-agent").isNull
  · simp [h, getKey_setKey_ne _ _ _ _ (by decide : ("user-agent" : String) ≠ "requests")]
  · simp [h]

theorem step2_user_agent (q t : JsonValue) :
    (if ((q.getKey "requests").getKey "total_received").isNull then
        q.setKey "requests" ((q.getKey "requests").setKey "total_received" t)
      else q).getKey "user-agent" = q.getKey "user-agent" := by
  by_cases h : ((q.getKey "requests").getKey "total_received").isNull
  · simp [h, getKey_setKey_ne _ _ _ _ (by decide : ("requests" : String) ≠ "user-agent")]
  · simp [h]

theorem step2_total_received (q t : JsonValue) :
    ((if ((q.getKey "requests").getKey "total_received").isNull then
        q.setKey "requests" ((q.getKey "requests").setKey "total_received" t)
      else q).getKey "requests").getKey "total_received" =
      (if ((q.getKey "requests").getKey "total_received").isNull then t
        else (q.getKey "requests").getKey "total_received") := by
  by_cases h : ((q.getKey "requests").getKey "total_received").isNull
  · simp [h, getKey_setKey_self]
  · simp [h]

/-- C8: at flush, each of the two default fields — the "user-agent" list
and the "requests"."total_received" count — is back-filled from the
envelope bookkeeping exactly when the concrete kind's exported record left
it null; a value the kind already populated is never overwritten. -/
theorem backfill_defaults_iff_null (e : Event) :
    ((e.original.into_event.getKey "user-agent").isNull = true →
      (exportEvent e).properties.getKey "user-agent" = jsonOfAgents e.user_agents) ∧
    ((e.original.into_event.getKey "user-agent").isNull = false →
      (exportEvent e).properties.getKey "user-agent" =
        e.original.into_event.getKey "user-agent") ∧
    (((e.original.into_event.getKey "requests").getKey "total_received").isNull = true →
      ((exportEvent e).properties.getKey "requests").getKey "total_received" =
        JsonValue.num e.total) ∧
    (((e.original.into_event.getKey "requests").getKey "total_received").isNull = false →
      ((exportEvent e).properties.getKey "requests").getKey "total_received" =
        (e.original.into_event.getKey "requests").getKey "total_received") := by
  refine ⟨fun h => ?_, fun h => ?_, fun h => ?_, fun h => ?_⟩
  · simp only [exportEvent]
    rw [step2_user_agent, step1_user_agent, h]
    simp
  · simp only [exportEvent]
    rw [step2_user_agent, step1_user_agent, h]
    simp
  · simp only [exportEvent]
    rw [step2_total_received, step1_requests, h]
    simp
  · simp only [exportEvent]
    rw [step2_total_received, step1_requests, h]
    simp

/-- C8 witness: the stored search envelope's record leaves "user-agent"
null (so it is back-filled) and populates "requests"."total_received" (so
that value is kept). -/
theorem backfill_defaults_iff_null_witness :
    (exportEvent storedSearchEnvelope).properties.getKey "user-agent" =
        jsonOfAgents storedSearchEnvelope.user_agents ∧
    ((exportEvent storedSearchEnvelope).properties.getKey "requests").getKey
        "total_received" =
      (storedSearchEnvelope.original.into_event.getKey "requests").getKey
        "total_received" :=
  ⟨(backfill_defaults_iff_null storedSearchEnvelope).1 rfl,
   (backfill_defaults_iff_null storedSearchEnvelope).2.2.2 rfl⟩

/-- C10: every message built through `Message::new` for a concrete type
carries that type's tag and `downcast_aggregate` function; the downcast
succeeds whenever both operands carry the bound type; and therefore on any
store whose entry for that tag holds a payload of the same dynamic type
(which `handle_msg` maintains for `Message::new` messages), recording such
a message never takes the silent-drop branch. -/
theorem message_new_sound (k : Kind) (p : Kind.Payload k) (ts : Nat)
    (ua : Finset String) :
    (Message.new k p ts ua).type_id = k ∧
    (Message.new k p ts ua).aggregator_function = downcast_aggregate k ∧
    (∀ a b : AnyAggregate, a.kindOf = k → b.kindOf = k →
      (downcast_aggregate k a b).isSome = true) ∧
    (∀ events : Store,
      (∀ e, events k = some e → e.original.kindOf = k) →
      (handle_msg events (Message.new k p ts ua) k).isSome = true) := by
  refine ⟨rfl, rfl, fun a b ha hb => ?_, fun events hwf => ?_⟩
  · obtain ⟨c, hc, _⟩ := downcast_total k a b ha hb
    rw [hc]
    rfl
  · cases hk : events k with
    | none =>
      rw [handle_msg_insert events (Message.new k p ts ua) hk]
      simp [Message.new]
    | some old =>
      obtain ⟨c, hc, _⟩ := downcast_total k old.original (AnyAggregate.pack k p)
        (hwf old hk) (pack_kindOf k p)
      rw [handle_msg_merge events (Message.new k p ts ua) old c hk hc]
      simp [Message.new]

/-- C10 witness: recording a fresh `Message::new` search message on the
empty store succeeds (no silent drop). -/
theorem message_new_sound_witness :
    (handle_msg (fun _ => none) (Message.new Kind.searchGET searchEventBase 100 ∅)
      Kind.searchGET).isSome = true :=
  (message_new_sound Kind.searchGET searchEventBase 100 ∅).2.2.2 (fun _ => none)
    (fun _ h => Option.noConfusion h)
